import Mathlib

/-!
# Verification of `http/router/middleware` (rsgcata/go-http)

A shallow embedding of the two middleware components of the package,
`Recoverer` (recoverer.go) and `Errorhandler` (errorhandler.go), together with
the helper `errIsAny`, followed by theorems about them.

The package's own code is embedded function by function.  The parts of the Go
standard library it calls (`errors.Is`, `errors.New`, `fmt.Sprint`,
`http.StatusText`, `http.Error`, and the response sink used by the package's
tests, `httptest.ResponseRecorder`) are modelled in the first half of the
file, each with a note on what the model covers.
-/

namespace middleware

/-! ## Go error values -/

/-- Error values as built by the standard library.  The `addr` field stands
for the address of the allocated value: Go compares these pointer-typed errors
by address, so two values made by two calls of `errors.New` with the same text
differ in `addr`.
* `errorString` is the result of `errors.New`;
* `wrapError` is the result of `fmt.Errorf` with one `%w` verb: its `Unwrap`
  method returns `err`;
* `wrapErrors` is the result of `errors.Join` or of `fmt.Errorf` with several
  `%w` verbs: its `Unwrap` method returns the slice `errs`.
Error types with a custom `Is` method or of a non-comparable type are outside
the model. -/
inductive GoError where
  | errorString (addr : Nat) (s : String)
  | wrapError (addr : Nat) (msg : String) (err : GoError)
  | wrapErrors (addr : Nat) (msg : String) (errs : List GoError)

mutual
/-- Decision procedure for equality of error values. -/
def GoError.decEq : (a b : GoError) → Decidable (a = b)
  | .errorString a s, .errorString b t =>
    if h : a = b ∧ s = t then isTrue (by rw [h.1, h.2])
    else isFalse (fun e => h (by injection e with h1 h2; exact ⟨h1, h2⟩))
  | .errorString _ _, .wrapError _ _ _ => isFalse (fun e => by injection e)
  | .errorString _ _, .wrapErrors _ _ _ => isFalse (fun e => by injection e)
  | .wrapError _ _ _, .errorString _ _ => isFalse (fun e => by injection e)
  | .wrapError a s x, .wrapError b t y =>
    if h : a = b ∧ s = t then
      match GoError.decEq x y with
      | isTrue hx => isTrue (by rw [h.1, h.2, hx])
      | isFalse hx => isFalse (fun e => hx (by injection e))
    else isFalse (fun e => h (by injection e with h1 h2 _; exact ⟨h1, h2⟩))
  | .wrapError _ _ _, .wrapErrors _ _ _ => isFalse (fun e => by injection e)
  | .wrapErrors _ _ _, .errorString _ _ => isFalse (fun e => by injection e)
  | .wrapErrors _ _ _, .wrapError _ _ _ => isFalse (fun e => by injection e)
  | .wrapErrors a s xs, .wrapErrors b t ys =>
    if h : a = b ∧ s = t then
      match GoError.decEqList xs ys with
      | isTrue hx => isTrue (by rw [h.1, h.2, hx])
      | isFalse hx => isFalse (fun e => hx (by injection e))
    else isFalse (fun e => h (by injection e with h1 h2 _; exact ⟨h1, h2⟩))
/-- Decision procedure for equality of slices of error values. -/
def GoError.decEqList : (as bs : List GoError) → Decidable (as = bs)
  | [], [] => isTrue rfl
  | [], _ :: _ => isFalse (fun e => by injection e)
  | _ :: _, [] => isFalse (fun e => by injection e)
  | a :: as, b :: bs =>
    match GoError.decEq a b with
    | isTrue h1 =>
      match GoError.decEqList as bs with
      | isTrue h2 => isTrue (by rw [h1, h2])
      | isFalse h2 => isFalse (fun e => h2 (by injection e))
    | isFalse h1 => isFalse (fun e => h1 (by injection e))
end

instance : DecidableEq GoError := GoError.decEq

/-- The Go interface type `error`: `none` is the nil error. -/
abbrev error := Option GoError

/-- The `Error()` method: the message of an error value. -/
def GoError.Error : GoError → String
  | .errorString _ s => s
  | .wrapError _ msg _ => msg
  | .wrapErrors _ msg _ => msg

/-- Model of `errors.New(text)`; `addr` is the address of the new value. -/
def errors.New (addr : Nat) (text : String) : GoError := .errorString addr text

mutual
/-- Model of the unexported loop `errors.is` for a comparable target:
compare the current error with the target, then descend through `Unwrap`
(one error, or depth-first through a slice of errors). -/
def errors.is : GoError → GoError → Bool
  | .errorString a s, target => decide (GoError.errorString a s = target)
  | .wrapError a m e, target =>
    decide (GoError.wrapError a m e = target) || errors.is e target
  | .wrapErrors a m es, target =>
    decide (GoError.wrapErrors a m es = target) || errors.isList es target
/-- The `for _, err := range x.Unwrap()` loop inside `errors.is`. -/
def errors.isList : List GoError → GoError → Bool
  | [], _ => false
  | e :: es, target => errors.is e target || errors.isList es target
end

/-- Model of `errors.Is(err, target)`: when either side is nil the answer is
`err == target`, otherwise the chain walk `errors.is`. -/
def errors.Is (err target : error) : Bool :=
  match err, target with
  | some e, some t => errors.is e t
  | _, _ => decide (err = target)

/-- Embedding of `errIsAny` (errorhandler.go): the first target that
`errors.Is` accepts makes the loop return true. -/
def errIsAny (err : error) (target : List error) : Bool :=
  match target with
  | [] => false
  | t :: rest => if errors.Is err t then true else errIsAny err rest

/-! ## Values carried by a panic -/

/-- Values of the empty interface type `any`, as far as `recover()` and the
type switch of `Recoverer.ServeHTTP` tell them apart: a `string`, an `error`,
or a value of another type (an `int` or a `bool` here).  Since Go 1.21, the
first release with `log/slog`, `recover()` never returns nil after a panic:
`panic(nil)` is recovered as a `*runtime.PanicNilError`, which is an error. -/
inductive GoAny where
  | string (v : String)
  | error (v : GoError)
  | int (v : Int)
  | bool (v : Bool)
deriving DecidableEq

/-- Model of `fmt.Sprint(v)` for one operand (the `%v` rendering): a string is
printed as it is, an error through its `Error()` method, an integer in
decimal, a boolean as `true` or `false`. -/
def fmt.Sprint : GoAny → String
  | .string v => v
  | .error v => v.Error
  | .int v => toString v
  | .bool v => if v then "true" else "false"

/-! ## net/http and net/http/httptest -/

/-- Status code `http.StatusOK`. -/
def StatusOK : Nat := 200
/-- Status code `http.StatusBadRequest`. -/
def StatusBadRequest : Nat := 400
/-- Status code `http.StatusInternalServerError`. -/
def StatusInternalServerError : Nat := 500

/-- Model of `http.StatusText` on the codes that occur here; the real table
has more entries, and unknown codes give the empty string. -/
def StatusText (code : Nat) : String :=
  if code = 200 then "OK"
  else if code = 400 then "Bad Request"
  else if code = 404 then "Not Found"
  else if code = 500 then "Internal Server Error"
  else ""

/-- Model of `http.Header`: keys with their values. -/
abbrev Header := List (String × List String)

/-- Model of `Header.Del`. -/
def Header.Del (h : Header) (key : String) : Header :=
  h.filter (fun kv => kv.1 != key)

/-- Model of `Header.Set`: the key gets the single value. -/
def Header.Set (h : Header) (key value : String) : Header :=
  Header.Del h key ++ [(key, [value])]

/-- Identity of a `context.Context` value. -/
abbrev Context := Nat

/-- Model of `*http.Request`: what the handlers here can tell apart, with the
request's own context (`rq.Context()`). -/
structure Request where
  Method : String
  URL : String
  ctx : Context
deriving DecidableEq

/-- Model of `httptest.ResponseRecorder`, the response sink of the package's
tests.  `Code` is the status of the response, `snapHeader` the headers sent
with it (frozen at the first `WriteHeader`), `Body` the bytes written. -/
structure ResponseRecorder where
  Code : Nat
  HeaderMap : Header
  Body : String
  wroteHeader : Bool
  snapHeader : Header
deriving DecidableEq

/-- Model of `httptest.NewRecorder()`. -/
def NewRecorder : ResponseRecorder :=
  { Code := 200, HeaderMap := [], Body := "", wroteHeader := false, snapHeader := [] }

/-- Model of `ResponseRecorder.WriteHeader`: only the first call counts; a
later call leaves the recorder as it is. -/
def ResponseRecorder.WriteHeader (rw : ResponseRecorder) (code : Nat) : ResponseRecorder :=
  if rw.wroteHeader then rw
  else { rw with Code := code, wroteHeader := true, snapHeader := rw.HeaderMap }

/-- Model of `ResponseRecorder.Write`: a write before any `WriteHeader` sends
the header with status 200 first, then the bytes are appended to the body.
The recorder's guess of a Content-Type for such an implicit header is not
modelled. -/
def ResponseRecorder.Write (rw : ResponseRecorder) (buf : String) : ResponseRecorder :=
  let rw1 := if rw.wroteHeader then rw else rw.WriteHeader 200
  { rw1 with Body := rw1.Body ++ buf }

/-- The calls a caller can make on an `http.ResponseWriter`. -/
inductive SinkOp where
  | HeaderDel (key : String)
  | HeaderSet (key value : String)
  | WriteHeader (code : Nat)
  | Write (buf : String)
deriving DecidableEq

/-- Effect of one call on the recorder. -/
def ResponseRecorder.apply (rw : ResponseRecorder) : SinkOp → ResponseRecorder
  | .HeaderDel key => { rw with HeaderMap := Header.Del rw.HeaderMap key }
  | .HeaderSet key value => { rw with HeaderMap := Header.Set rw.HeaderMap key value }
  | .WriteHeader code => rw.WriteHeader code
  | .Write buf => rw.Write buf

/-- Identity of a `*slog.Logger`. -/
structure Logger where
  id : Nat
deriving DecidableEq

/-- What a component does, in order, during one `ServeHTTP` call:
* `callNext rw rq`: it invokes the wrapped handler on sink `rw` (in the state
  shown) and request `rq`;
* `ErrorContext l ctx msg`: it calls `l.ErrorContext(ctx, msg)`;
* `Stderr s`: it writes `s` to `os.Stderr`;
* `PrintStack`: it calls `debug.PrintStack()`;
* `sink op`: it makes the call `op` on the response sink itself. -/
inductive Event where
  | callNext (rw : ResponseRecorder) (rq : Request)
  | ErrorContext (l : Logger) (ctx : Context) (msg : String)
  | Stderr (s : String)
  | PrintStack
  | sink (op : SinkOp)
deriving DecidableEq

/-- State threaded through a `ServeHTTP` call: the response sink and the
record of what the component has done so far. -/
structure World where
  rw : ResponseRecorder
  trace : List Event
deriving DecidableEq

/-- The component records an event that leaves the sink alone. -/
def World.emit (w : World) (e : Event) : World :=
  { w with trace := w.trace ++ [e] }

/-- The component makes a call on the sink. -/
def World.sink (w : World) (op : SinkOp) : World :=
  { rw := w.rw.apply op, trace := w.trace ++ [Event.sink op] }

/-- Model of `http.Error(w, error, code)` (Go 1.23 and later): drop a stale
Content-Length, set the two headers, send the header with `code`, and print
the message with `fmt.Fprintln`, that is followed by a newline. -/
def http.Error (w : World) (error : String) (code : Nat) : World :=
  let w := w.sink (.HeaderDel "Content-Length")
  let w := w.sink (.HeaderSet "Content-Type" "text/plain; charset=utf-8")
  let w := w.sink (.HeaderSet "X-Content-Type-Options" "nosniff")
  let w := w.sink (.WriteHeader code)
  w.sink (.Write (error ++ "\n"))

/-! ## The two components -/

/-- How a call completes: it returns, or a panic with value `v` leaves it. -/
inductive Completion where
  | returned
  | panicked (v : GoAny)
deriving DecidableEq

/-- Model of `http.Handler`: run against the sink and the request, the handler
leaves the sink in a new state and either returns or panics. -/
abbrev Handler := ResponseRecorder → Request → ResponseRecorder × Completion

/-- How a `CustomHandler` completes: it returns an error (nil or not), or a
panic leaves it. -/
inductive CustomCompletion where
  | returned (err : error)
  | panicked (v : GoAny)
deriving DecidableEq

/-- Embedding of `CustomHandler` (errorhandler.go): like `Handler`, but
returning an error. -/
abbrev CustomHandler := ResponseRecorder → Request → ResponseRecorder × CustomCompletion

/-- Embedding of `Recoverer` (recoverer.go). -/
structure Recoverer where
  next : Handler
  ctx : Context
  logger : Option Logger

/-- Embedding of `Errorhandler` (errorhandler.go). -/
structure Errorhandler where
  next : CustomHandler
  ctx : Context
  logger : Option Logger
  clientErrs : List error

/-- Result of one `ServeHTTP` call: the sink afterwards, what the component
did, and how the call completed. -/
structure Exec where
  rw : ResponseRecorder
  trace : List Event
  completion : Completion
deriving DecidableEq

/-- Embedding of `Recoverer.ServeHTTP` (recoverer.go).  The wrapped handler
runs first; the deferred function then sees what `recover()` returns.  The
address given to the error made by `errors.New` is never observed: only its
`Error()` method is called. -/
def Recoverer.ServeHTTP (recoverer : Recoverer) (rw : ResponseRecorder) (rq : Request) : Exec :=
  let w : World := { rw := rw, trace := [Event.callNext rw rq] }
  match recoverer.next rw rq with
  | (rw1, .returned) => { rw := rw1, trace := w.trace, completion := .returned }
  | (rw1, .panicked rvr) =>
    let w : World := { w with rw := rw1 }
    let err : GoError :=
      match rvr with
      | .string v => errors.New 0 v
      | .error v => v
      | v => errors.New 0 (fmt.Sprint v)
    let w :=
      match recoverer.logger with
      | some logger => w.emit (.ErrorContext logger recoverer.ctx err.Error)
      | none => (w.emit (.Stderr ("Panic: " ++ fmt.Sprint rvr ++ "\n"))).emit .PrintStack
    let w := http.Error w (StatusText StatusInternalServerError) StatusInternalServerError
    { rw := w.rw, trace := w.trace, completion := .returned }

/-- Embedding of `Errorhandler.ServeHTTP` (errorhandler.go).  A panic of the
wrapped handler is not caught here and leaves the call. -/
def Errorhandler.ServeHTTP (handler : Errorhandler) (rw : ResponseRecorder) (rq : Request) : Exec :=
  let w : World := { rw := rw, trace := [Event.callNext rw rq] }
  match handler.next rw rq with
  | (rw1, .panicked v) => { rw := rw1, trace := w.trace, completion := .panicked v }
  | (rw1, .returned none) => { rw := rw1, trace := w.trace, completion := .returned }
  | (rw1, .returned (some err)) =>
    let w : World := { w with rw := rw1 }
    let w :=
      match handler.logger with
      | some logger => w.emit (.ErrorContext logger handler.ctx err.Error)
      | none => w.emit (.Stderr ("Panic: " ++ err.Error ++ "\n"))
    let w :=
      if errIsAny (some err) handler.clientErrs then
        http.Error w (StatusText StatusBadRequest) StatusBadRequest
      else
        http.Error w (StatusText StatusInternalServerError) StatusInternalServerError
    { rw := w.rw, trace := w.trace, completion := .returned }

/-! ## Reading a trace -/

/-- The calls the component made on the response sink, in order. -/
def sinkOps : List Event → List SinkOp
  | [] => []
  | .sink op :: rest => op :: sinkOps rest
  | _ :: rest => sinkOps rest

/-- The calls of `ErrorContext` the component made: logger, context, message. -/
def logCalls : List Event → List (Logger × Context × String)
  | [] => []
  | .ErrorContext l ctx msg :: rest => (l, ctx, msg) :: logCalls rest
  | _ :: rest => logCalls rest

/-- The messages handed to the logger, in order. -/
def loggedMessages (t : List Event) : List String :=
  (logCalls t).map (fun c => c.2.2)

/-- The invocations of the wrapped handler: sink and request of each. -/
def nextCalls : List Event → List (ResponseRecorder × Request)
  | [] => []
  | .callNext rw rq :: rest => (rw, rq) :: nextCalls rest
  | _ :: rest => nextCalls rest

/-- The body bytes the component itself wrote to the sink. -/
def writtenBody : List Event → String
  | [] => ""
  | .sink (.Write buf) :: rest => buf ++ writtenBody rest
  | _ :: rest => writtenBody rest

/-! ## The wrap chain of an error -/

/-- One step of unwrapping: `Unwraps e e1` when `e1` is what `e.Unwrap()`
returns, or one element of the slice it returns. -/
inductive Unwraps : GoError → GoError → Prop where
  | wrapError (a : Nat) (m : String) (e : GoError) : Unwraps (.wrapError a m e) e
  | wrapErrors (a : Nat) (m : String) (es : List GoError) (e : GoError) :
      e ∈ es → Unwraps (.wrapErrors a m es) e

/-- The wrap chain: `InChain e t` when `t` is `e` itself or is reached from
`e` by any number of unwrapping steps. -/
inductive InChain : GoError → GoError → Prop where
  | self (e : GoError) : InChain e e
  | step {e e1 t : GoError} : Unwraps e e1 → InChain e1 t → InChain e t

/-- An error matches a target, in the words of the specification: it is the
target, or both are non-nil and an error of its wrap chain is the target. -/
def Matches (err t : error) : Prop :=
  err = t ∨ ∃ e s, err = some e ∧ t = some s ∧ InChain e s

/-! ## Sample values used by the concrete instances -/

/-- The sentinel `testClientError` of errorhandler_test.go. -/
def testClientError : GoError := errors.New 1 "test client error"

/-- The sentinel `testServerError` of errorhandler_test.go. -/
def testServerError : GoError := errors.New 2 "test server error"

/-- A request as made by `httptest.NewRequest(http.MethodGet, "/test", nil)`,
carrying a context of its own (identity 7). -/
def testRequest : Request := { Method := "GET", URL := "/test", ctx := 7 }

/-- A logger. -/
def testLogger : Logger := { id := 1 }

/-! ## Definitions used in the statements and proofs -/

/-- The five calls `http.Error` makes on the sink. -/
def httpErrorOps (error : String) (code : Nat) : List SinkOp :=
  [.HeaderDel "Content-Length",
   .HeaderSet "Content-Type" "text/plain; charset=utf-8",
   .HeaderSet "X-Content-Type-Options" "nosniff",
   .WriteHeader code,
   .Write (error ++ "\n")]

/-- The status `Errorhandler.ServeHTTP` chooses for a returned error. -/
def chosenStatus (handler : Errorhandler) (e : GoError) : Nat :=
  if errIsAny (some e) handler.clientErrs then StatusBadRequest else StatusInternalServerError

/-- The events by which `Errorhandler.ServeHTTP` reports a returned error. -/
def errorReport (handler : Errorhandler) (e : GoError) : List Event :=
  match handler.logger with
  | some logger => [Event.ErrorContext logger handler.ctx e.Error]
  | none => [Event.Stderr ("Panic: " ++ e.Error ++ "\n")]

/-- The events by which `Recoverer.ServeHTTP` reports a recovered panic. -/
def panicReport (recoverer : Recoverer) (rvr : GoAny) : List Event :=
  match recoverer.logger with
  | some logger =>
    [Event.ErrorContext logger recoverer.ctx
      (match rvr with
       | .string v => v
       | .error v => v.Error
       | v => fmt.Sprint v)]
  | none => [Event.Stderr ("Panic: " ++ fmt.Sprint rvr ++ "\n"), Event.PrintStack]

/-! ## Handlers used by the concrete instances -/

/-- A handler that returns the error `e` without touching the sink, as the
failing handlers of errorhandler_test.go do. -/
def failWith (e : GoError) : CustomHandler :=
  fun rw _ => (rw, CustomCompletion.returned (some e))

/-- A handler that sends a complete response (status 200, body `done`) and
then returns the error `e`. -/
def writeThenFail (e : GoError) : CustomHandler :=
  fun rw _ => ((rw.WriteHeader StatusOK).Write "done", CustomCompletion.returned (some e))

/-- A handler that panics with `v` without touching the sink, as the
panicking handlers of recoverer_test.go do. -/
def panicWith (v : GoAny) : Handler :=
  fun rw _ => (rw, Completion.panicked v)

/-- A handler that sends the header with status 200 and then panics with `v`. -/
def writeThenPanic (v : GoAny) : Handler :=
  fun rw _ => (rw.WriteHeader StatusOK, Completion.panicked v)

/-- The handler of `TestNoRecoveryNeeded`: it sends status 200 and returns. -/
def okHandler : Handler :=
  fun rw _ => (rw.WriteHeader StatusOK, Completion.returned)

/-- The handler of `TestNoErrorHandlingNeeded`: it sends status 200 and
returns nil. -/
def okCustomHandler : CustomHandler :=
  fun rw _ => (rw.WriteHeader StatusOK, CustomCompletion.returned none)

/-- An error wrapping `testClientError` through two levels, as made by
`fmt.Errorf("handler: %w", fmt.Errorf("lookup: %w", testClientError))`. -/
def wrappedClientError : GoError :=
  .wrapError 4 "handler: lookup: test client error"
    (.wrapError 3 "lookup: test client error" testClientError)

/-! ## Lemmas on `errors.Is` and `errIsAny` -/

theorem errors_is_self (e : GoError) : errors.is e e = true := by
  cases e <;> simp [errors.is]

theorem errors_isList_of_mem {es : List GoError} {e t : GoError} (hmem : e ∈ es)
    (h : errors.is e t = true) : errors.isList es t = true := by
  induction es with
  | nil => cases hmem
  | cons x xs ih =>
    simp only [errors.isList, Bool.or_eq_true]
    rcases List.mem_cons.mp hmem with hx | hx
    · subst hx; exact Or.inl h
    · exact Or.inr (ih hx)

theorem errors_is_of_inChain {e t : GoError} (h : InChain e t) : errors.is e t = true := by
  induction h with
  | self e => exact errors_is_self e
  | step hu _ ih =>
    cases hu with
    | wrapError a m e => simp [errors.is, ih]
    | wrapErrors a m es e hmem => simp [errors.is, errors_isList_of_mem hmem ih]

mutual
theorem inChain_of_errors_is : ∀ (e t : GoError), errors.is e t = true → InChain e t
  | .errorString a s, t, h => by
    simp only [errors.is, decide_eq_true_eq] at h
    subst h; exact InChain.self _
  | .wrapError a m e, t, h => by
    simp only [errors.is, Bool.or_eq_true, decide_eq_true_eq] at h
    rcases h with h | h
    · subst h; exact InChain.self _
    · exact InChain.step (Unwraps.wrapError a m e) (inChain_of_errors_is e t h)
  | .wrapErrors a m es, t, h => by
    simp only [errors.is, Bool.or_eq_true, decide_eq_true_eq] at h
    rcases h with h | h
    · subst h; exact InChain.self _
    · obtain ⟨x, hx, hc⟩ := inChain_of_errors_isList es t h
      exact InChain.step (Unwraps.wrapErrors a m es x hx) hc
theorem inChain_of_errors_isList : ∀ (es : List GoError) (t : GoError),
    errors.isList es t = true → ∃ e, e ∈ es ∧ InChain e t
  | [], t, h => by simp [errors.isList] at h
  | e :: es, t, h => by
    simp only [errors.isList, Bool.or_eq_true] at h
    rcases h with h | h
    · exact ⟨e, List.mem_cons_self _ _, inChain_of_errors_is e t h⟩
    · obtain ⟨x, hx, hc⟩ := inChain_of_errors_isList es t h
      exact ⟨x, List.mem_cons_of_mem _ hx, hc⟩
end

theorem errors_is_iff (e t : GoError) : errors.is e t = true ↔ InChain e t :=
  ⟨inChain_of_errors_is e t, errors_is_of_inChain⟩

theorem errors_Is_iff (err t : error) : errors.Is err t = true ↔ Matches err t := by
  cases err with
  | none =>
    cases t with
    | none => simp [errors.Is, Matches]
    | some s => simp [errors.Is, Matches]
  | some e =>
    cases t with
    | none => simp [errors.Is, Matches]
    | some s =>
      simp only [errors.Is, errors_is_iff, Matches]
      constructor
      · intro h; exact Or.inr ⟨e, s, rfl, rfl, h⟩
      · rintro (h | ⟨e1, s1, h1, h2, h3⟩)
        · cases h; exact InChain.self _
        · cases h1; cases h2; exact h3

theorem errIsAny_eq_true_iff (err : error) (target : List error) :
    errIsAny err target = true ↔ ∃ t, t ∈ target ∧ errors.Is err t = true := by
  induction target with
  | nil => simp [errIsAny]
  | cons t rest ih =>
    by_cases h : errors.Is err t = true
    · simp [errIsAny, h]
    · simp [errIsAny, h, ih]

/-! ## Lemmas on `http.Error` and on the two components -/

theorem http_Error_trace (w : World) (msg : String) (code : Nat) :
    (http.Error w msg code).trace = w.trace ++ (httpErrorOps msg code).map Event.sink := by
  simp [http.Error, World.sink, httpErrorOps]

theorem http_Error_Code (w : World) (msg : String) (code : Nat) :
    (http.Error w msg code).rw.Code = if w.rw.wroteHeader then w.rw.Code else code := by
  cases h : w.rw.wroteHeader <;>
    simp [http.Error, World.sink, ResponseRecorder.apply, ResponseRecorder.WriteHeader,
      ResponseRecorder.Write, h]

theorem http_Error_Body (w : World) (msg : String) (code : Nat) :
    (http.Error w msg code).rw.Body = w.rw.Body ++ (msg ++ "\n") := by
  cases h : w.rw.wroteHeader <;>
    simp [http.Error, World.sink, ResponseRecorder.apply, ResponseRecorder.WriteHeader,
      ResponseRecorder.Write, h]

theorem sinkOps_append (t1 t2 : List Event) : sinkOps (t1 ++ t2) = sinkOps t1 ++ sinkOps t2 := by
  induction t1 with
  | nil => rfl
  | cons e rest ih => cases e <;> simp [sinkOps, ih]

theorem sinkOps_map_sink (ops : List SinkOp) : sinkOps (ops.map Event.sink) = ops := by
  induction ops with
  | nil => rfl
  | cons op rest ih => simp [sinkOps, ih]

theorem logCalls_append (t1 t2 : List Event) : logCalls (t1 ++ t2) = logCalls t1 ++ logCalls t2 := by
  induction t1 with
  | nil => rfl
  | cons e rest ih => cases e <;> simp [logCalls, ih]

theorem logCalls_map_sink (ops : List SinkOp) : logCalls (ops.map Event.sink) = [] := by
  induction ops with
  | nil => rfl
  | cons op rest ih => simp [logCalls, ih]

/-- What `Errorhandler.ServeHTTP` does when the wrapped handler returns a
non-nil error: one call of the handler, the report, one `http.Error`. -/
theorem Errorhandler_ServeHTTP_failure (handler : Errorhandler) (rw rw1 : ResponseRecorder)
    (rq : Request) (e : GoError)
    (hnext : handler.next rw rq = (rw1, CustomCompletion.returned (some e))) :
    Errorhandler.ServeHTTP handler rw rq =
      { rw := (http.Error { rw := rw1, trace := Event.callNext rw rq :: errorReport handler e }
                (StatusText (chosenStatus handler e)) (chosenStatus handler e)).rw,
        trace := (http.Error { rw := rw1, trace := Event.callNext rw rq :: errorReport handler e }
                (StatusText (chosenStatus handler e)) (chosenStatus handler e)).trace,
        completion := Completion.returned } := by
  unfold Errorhandler.ServeHTTP
  rw [hnext]
  cases hl : handler.logger <;> by_cases hc : errIsAny (some e) handler.clientErrs = true <;>
    simp [hl, hc, chosenStatus, errorReport, World.emit]

/-- What `Recoverer.ServeHTTP` does when the wrapped handler panics: one call
of the handler, the report, one `http.Error` with status 500. -/
theorem Recoverer_ServeHTTP_panic (recoverer : Recoverer) (rw rw1 : ResponseRecorder)
    (rq : Request) (rvr : GoAny)
    (hnext : recoverer.next rw rq = (rw1, Completion.panicked rvr)) :
    Recoverer.ServeHTTP recoverer rw rq =
      { rw := (http.Error { rw := rw1, trace := Event.callNext rw rq :: panicReport recoverer rvr }
                (StatusText StatusInternalServerError) StatusInternalServerError).rw,
        trace := (http.Error { rw := rw1, trace := Event.callNext rw rq :: panicReport recoverer rvr }
                (StatusText StatusInternalServerError) StatusInternalServerError).trace,
        completion := Completion.returned } := by
  unfold Recoverer.ServeHTTP
  rw [hnext]
  cases hl : recoverer.logger <;> cases rvr <;>
    simp [hl, panicReport, World.emit, errors.New, GoError.Error]

theorem writtenBody_append (t1 t2 : List Event) :
    writtenBody (t1 ++ t2) = writtenBody t1 ++ writtenBody t2 := by
  induction t1 with
  | nil => simp [writtenBody]
  | cons e rest ih =>
    cases e with
    | sink op => cases op <;> simp [writtenBody, ih, String.append_assoc]
    | _ => simp [writtenBody, ih]

theorem errIsAny_perm (err : error) {target1 target2 : List error}
    (h : target1.Perm target2) : errIsAny err target1 = errIsAny err target2 := by
  rw [Bool.eq_iff_iff, errIsAny_eq_true_iff, errIsAny_eq_true_iff]
  constructor
  · rintro ⟨t, ht, hIs⟩; exact ⟨t, h.mem_iff.mp ht, hIs⟩
  · rintro ⟨t, ht, hIs⟩; exact ⟨t, h.mem_iff.mpr ht, hIs⟩

/-! ## The claims -/

/-- C1, counterexample: with `testClientError` as the only sentinel, a wrapped
handler that has already sent a response with status 200 and then returns
`testClientError` leaves the response status at 200, not 400. -/
theorem C1_counterexample :
    (some testClientError ∈ [some testClientError]) ∧
    errIsAny (some testClientError) [some testClientError] = true ∧
    (Errorhandler.ServeHTTP
      { next := writeThenFail testClientError, ctx := 0, logger := some testLogger,
        clientErrs := [some testClientError] } NewRecorder testRequest).rw.Code = 200 ∧
    (Errorhandler.ServeHTTP
      { next := writeThenFail testClientError, ctx := 0, logger := some testLogger,
        clientErrs := [some testClientError] } NewRecorder testRequest).rw.Code ≠ 400 := by
  decide

/-- C1, amended: for every sentinel list, every logger configuration and every
wrapped handler that returns a non-nil error `e` which is an element `s` of
`clientErrs` or wraps one through any number of levels, the component calls
`http.Error` with status 400; the response status is 400 whenever the wrapped
handler has not already sent the response header, and stays the status the
handler sent otherwise. -/
theorem C1_client_error_status (handler : Errorhandler) (rw rw1 : ResponseRecorder)
    (rq : Request) (e s : GoError)
    (hnext : handler.next rw rq = (rw1, CustomCompletion.returned (some e)))
    (hmem : some s ∈ handler.clientErrs) (hwrap : InChain e s) :
    sinkOps (Errorhandler.ServeHTTP handler rw rq).trace
      = httpErrorOps (StatusText StatusBadRequest) StatusBadRequest ∧
    (rw1.wroteHeader = false → (Errorhandler.ServeHTTP handler rw rq).rw.Code = 400) ∧
    (rw1.wroteHeader = true → (Errorhandler.ServeHTTP handler rw rq).rw.Code = rw1.Code) := by
  have hany : errIsAny (some e) handler.clientErrs = true :=
    (errIsAny_eq_true_iff _ _).mpr
      ⟨some s, hmem, (errors_Is_iff _ _).mpr (Or.inr ⟨e, s, rfl, rfl, hwrap⟩)⟩
  have hcode : chosenStatus handler e = StatusBadRequest := by simp [chosenStatus, hany]
  rw [Errorhandler_ServeHTTP_failure handler rw rw1 rq e hnext, hcode]
  refine ⟨?_, ?_, ?_⟩
  · rw [http_Error_trace, sinkOps_append, sinkOps_map_sink]
    cases hl : handler.logger <;> simp [errorReport, hl, sinkOps]
  · intro hw
    simp [http_Error_Code, hw, StatusBadRequest]
  · intro hw
    simp [http_Error_Code, hw]

/-- C1, instance: `wrappedClientError` wraps the sentinel `testClientError`
through two levels; returned by a handler that wrote nothing, it gives
status 400. -/
theorem C1_client_error_status_witness :
    InChain wrappedClientError testClientError ∧
    (Errorhandler.ServeHTTP
      { next := failWith wrappedClientError, ctx := 0, logger := none,
        clientErrs := [some testServerError, some testClientError] }
      NewRecorder testRequest).rw.Code = 400 :=
  have hc : InChain wrappedClientError testClientError :=
    InChain.step (Unwraps.wrapError _ _ _)
      (InChain.step (Unwraps.wrapError _ _ _) (InChain.self _))
  ⟨hc, (C1_client_error_status
      { next := failWith wrappedClientError, ctx := 0, logger := none,
        clientErrs := [some testServerError, some testClientError] }
      NewRecorder NewRecorder testRequest wrappedClientError testClientError rfl
      (by decide) hc).2.1 rfl⟩

/-- C2, counterexample: with `testClientError` as the only sentinel, a wrapped
handler that has already sent a response with status 200 and then returns
`testServerError`, which matches no sentinel, leaves the response status at
200, not 500. -/
theorem C2_counterexample :
    errIsAny (some testServerError) [some testClientError] = false ∧
    (Errorhandler.ServeHTTP
      { next := writeThenFail testServerError, ctx := 0, logger := none,
        clientErrs := [some testClientError] } NewRecorder testRequest).rw.Code = 200 ∧
    (Errorhandler.ServeHTTP
      { next := writeThenFail testServerError, ctx := 0, logger := none,
        clientErrs := [some testClientError] } NewRecorder testRequest).rw.Code ≠ 500 := by
  decide

/-- C2, amended: for every sentinel list (the empty one included), every
logger configuration and every wrapped handler that returns a non-nil error
`e` matching no element of `clientErrs`, that is, with `errors.Is(e, t)` false
for every element `t` (such an `e` is neither equal to nor wrapping any of
them), the component calls `http.Error` with status 500; the response status
is 500 whenever the wrapped handler has not already sent the response header,
and stays the status the handler sent otherwise. -/
theorem C2_server_error_status (handler : Errorhandler) (rw rw1 : ResponseRecorder)
    (rq : Request) (e : GoError)
    (hnext : handler.next rw rq = (rw1, CustomCompletion.returned (some e)))
    (hnone : ∀ t, t ∈ handler.clientErrs → errors.Is (some e) t = false) :
    sinkOps (Errorhandler.ServeHTTP handler rw rq).trace
      = httpErrorOps (StatusText StatusInternalServerError) StatusInternalServerError ∧
    (rw1.wroteHeader = false → (Errorhandler.ServeHTTP handler rw rq).rw.Code = 500) ∧
    (rw1.wroteHeader = true → (Errorhandler.ServeHTTP handler rw rq).rw.Code = rw1.Code) ∧
    (∀ s, some s ∈ handler.clientErrs → ¬ InChain e s) := by
  have hany : errIsAny (some e) handler.clientErrs = false := by
    rw [Bool.eq_false_iff]
    intro h
    obtain ⟨t, ht, hIs⟩ := (errIsAny_eq_true_iff _ _).mp h
    rw [hnone t ht] at hIs
    cases hIs
  have hcode : chosenStatus handler e = StatusInternalServerError := by
    simp [chosenStatus, hany]
  have hchain : ∀ s, some s ∈ handler.clientErrs → ¬ InChain e s := by
    intro s hs hc
    have h1 : errors.Is (some e) (some s) = true :=
      (errors_Is_iff _ _).mpr (Or.inr ⟨e, s, rfl, rfl, hc⟩)
    rw [hnone (some s) hs] at h1
    cases h1
  rw [Errorhandler_ServeHTTP_failure handler rw rw1 rq e hnext, hcode]
  refine ⟨?_, ?_, ?_, hchain⟩
  · rw [http_Error_trace, sinkOps_append, sinkOps_map_sink]
    cases hl : handler.logger <;> simp [errorReport, hl, sinkOps]
  · intro hw
    simp [http_Error_Code, hw, StatusInternalServerError]
  · intro hw
    simp [http_Error_Code, hw]

/-- C2, instance: the configuration of `TestHandleErrorWithoutLogger`: the
sentinel list holds `testClientError`, no logger is set, and the handler
returns `testServerError` without writing; `errors.Is` rejects the one
sentinel, which is not in the wrap chain of the error, and the status is
500. -/
theorem C2_server_error_status_witness :
    (∀ t, t ∈ [some testClientError] → errors.Is (some testServerError) t = false) ∧
    ¬ InChain testServerError testClientError ∧
    sinkOps (Errorhandler.ServeHTTP
      { next := failWith testServerError, ctx := 0, logger := none,
        clientErrs := [some testClientError] }
      NewRecorder testRequest).trace
      = httpErrorOps (StatusText StatusInternalServerError) StatusInternalServerError ∧
    (Errorhandler.ServeHTTP
      { next := failWith testServerError, ctx := 0, logger := none,
        clientErrs := [some testClientError] }
      NewRecorder testRequest).rw.Code = 500 :=
  have hn : ∀ t, t ∈ [some testClientError] → errors.Is (some testServerError) t = false :=
    by decide
  have h := C2_server_error_status
      { next := failWith testServerError, ctx := 0, logger := none,
        clientErrs := [some testClientError] }
      NewRecorder NewRecorder testRequest testServerError rfl hn
  ⟨hn, h.2.2.2 testClientError (by decide), h.1, h.2.1 rfl⟩

/-- C3, counterexample: a wrapped handler that has already sent the header
with status 200 and then panics leaves the response status at 200, not 500. -/
theorem C3_counterexample :
    (Recoverer.ServeHTTP
      { next := writeThenPanic (GoAny.string "test panic string"), ctx := 0, logger := none }
      NewRecorder testRequest).rw.Code = 200 ∧
    (Recoverer.ServeHTTP
      { next := writeThenPanic (GoAny.string "test panic string"), ctx := 0, logger := none }
      NewRecorder testRequest).rw.Code ≠ 500 := by
  decide

/-- C3, amended: for every wrapped handler that panics with any value and for
every logger configuration, `ServeHTTP` returns normally without re-raising
the panic and calls `http.Error` with status 500; the response status is 500
whenever the wrapped handler has not already sent the response header, and
stays the status the handler sent otherwise. -/
theorem C3_recover_status (recoverer : Recoverer) (rw rw1 : ResponseRecorder)
    (rq : Request) (p : GoAny)
    (hnext : recoverer.next rw rq = (rw1, Completion.panicked p)) :
    (Recoverer.ServeHTTP recoverer rw rq).completion = Completion.returned ∧
    sinkOps (Recoverer.ServeHTTP recoverer rw rq).trace
      = httpErrorOps (StatusText StatusInternalServerError) StatusInternalServerError ∧
    (rw1.wroteHeader = false → (Recoverer.ServeHTTP recoverer rw rq).rw.Code = 500) ∧
    (rw1.wroteHeader = true → (Recoverer.ServeHTTP recoverer rw rq).rw.Code = rw1.Code) := by
  rw [Recoverer_ServeHTTP_panic recoverer rw rw1 rq p hnext]
  refine ⟨rfl, ?_, ?_, ?_⟩
  · rw [http_Error_trace, sinkOps_append, sinkOps_map_sink]
    cases hl : recoverer.logger <;> simp [panicReport, hl, sinkOps]
  · intro hw
    simp [http_Error_Code, hw, StatusInternalServerError]
  · intro hw
    simp [http_Error_Code, hw]

/-- C3, instance: the handler of `TestRecoverWithoutLogger` panics with a
string, no logger is configured; the call returns and the status is 500. -/
theorem C3_recover_status_witness :
    (Recoverer.ServeHTTP
      { next := panicWith (GoAny.string "test panic without logger"), ctx := 0, logger := none }
      NewRecorder testRequest).completion = Completion.returned ∧
    (Recoverer.ServeHTTP
      { next := panicWith (GoAny.string "test panic without logger"), ctx := 0, logger := none }
      NewRecorder testRequest).rw.Code = 500 :=
  have h := C3_recover_status
      { next := panicWith (GoAny.string "test panic without logger"), ctx := 0, logger := none }
      NewRecorder NewRecorder testRequest (GoAny.string "test panic without logger") rfl
  ⟨h.1, h.2.2.1 rfl⟩

/-- C4: with a logger configured, for every panic value `p` raised by the
wrapped handler, the one message handed to the logger is `p` itself when `p`
is a string, `p.Error()` when `p` is an error, and `fmt.Sprint(p)` otherwise;
`fmt.Sprint` of the integer 123 is the text 123. -/
theorem C4_logged_message (recoverer : Recoverer) (l : Logger) (rw rw1 : ResponseRecorder)
    (rq : Request) (p : GoAny)
    (hlog : recoverer.logger = some l)
    (hnext : recoverer.next rw rq = (rw1, Completion.panicked p)) :
    (∀ v, p = GoAny.string v →
      loggedMessages (Recoverer.ServeHTTP recoverer rw rq).trace = [v]) ∧
    (∀ v, p = GoAny.error v →
      loggedMessages (Recoverer.ServeHTTP recoverer rw rq).trace = [v.Error]) ∧
    ((∀ v, p ≠ GoAny.string v) → (∀ v, p ≠ GoAny.error v) →
      loggedMessages (Recoverer.ServeHTTP recoverer rw rq).trace = [fmt.Sprint p]) ∧
    fmt.Sprint (GoAny.int 123) = "123" := by
  rw [Recoverer_ServeHTTP_panic recoverer rw rw1 rq p hnext]
  simp only [loggedMessages, http_Error_trace, logCalls_append, logCalls_map_sink,
    List.append_nil]
  refine ⟨?_, ?_, ?_, by decide⟩
  · intro v hv
    subst hv
    simp [panicReport, hlog, logCalls]
  · intro v hv
    subst hv
    simp [panicReport, hlog, logCalls]
  · intro h1 h2
    cases p with
    | string v => exact absurd rfl (h1 v)
    | error v => exact absurd rfl (h2 v)
    | int v => simp [panicReport, hlog, logCalls]
    | bool v => simp [panicReport, hlog, logCalls]

/-- C4, instance: the handler of `TestRecoverFromOtherPanic` panics with the
integer 123 and the logger receives the message 123. -/
theorem C4_logged_message_witness :
    loggedMessages (Recoverer.ServeHTTP
      { next := panicWith (GoAny.int 123), ctx := 0, logger := some testLogger }
      NewRecorder testRequest).trace = ["123"] :=
  (C4_logged_message
    { next := panicWith (GoAny.int 123), ctx := 0, logger := some testLogger }
    testLogger NewRecorder NewRecorder testRequest (GoAny.int 123) rfl rfl).2.2.1
    (fun _ h => GoAny.noConfusion h) (fun _ h => GoAny.noConfusion h)

/-- C5, counterexample: after a panic the body written by `Recoverer` is the
status text followed by a newline, which is not exactly the status text
`Internal Server Error`; the same holds for `Errorhandler` and `Bad Request`. -/
theorem C5_counterexample :
    writtenBody (Recoverer.ServeHTTP
      { next := panicWith (GoAny.string "secret"), ctx := 0, logger := none }
      NewRecorder testRequest).trace = "Internal Server Error\n" ∧
    writtenBody (Recoverer.ServeHTTP
      { next := panicWith (GoAny.string "secret"), ctx := 0, logger := none }
      NewRecorder testRequest).trace ≠ StatusText StatusInternalServerError ∧
    (Recoverer.ServeHTTP
      { next := panicWith (GoAny.string "secret"), ctx := 0, logger := none }
      NewRecorder testRequest).rw.Body ≠ "Internal Server Error" ∧
    writtenBody (Errorhandler.ServeHTTP
      { next := failWith testClientError, ctx := 0, logger := none,
        clientErrs := [some testClientError] }
      NewRecorder testRequest).trace ≠ StatusText StatusBadRequest := by
  decide

/-- C5, amended: for every failure response produced by either component
(`Recoverer` after a panic with any value, `Errorhandler` after any non-nil
returned error), the body written by the component is the standard status
text of the chosen status code followed by one newline (`Internal Server
Error` and a newline for 500, `Bad Request` and a newline for 400), appended
to whatever the wrapped handler wrote; it is the same for every panic value
and depends on a returned error only through the chosen status, so the panic
payload or error text never reaches the client. -/
theorem C5_generic_body (recoverer : Recoverer) (handler : Errorhandler)
    (rw : ResponseRecorder) (rq : Request) :
    (∀ rw1 p, recoverer.next rw rq = (rw1, Completion.panicked p) →
      writtenBody (Recoverer.ServeHTTP recoverer rw rq).trace = "Internal Server Error\n" ∧
      (Recoverer.ServeHTTP recoverer rw rq).rw.Body = rw1.Body ++ "Internal Server Error\n") ∧
    (∀ rw1 e, handler.next rw rq = (rw1, CustomCompletion.returned (some e)) →
      ∃ code, (code = 400 ∧ StatusText code = "Bad Request" ∨
               code = 500 ∧ StatusText code = "Internal Server Error") ∧
        SinkOp.WriteHeader code ∈ sinkOps (Errorhandler.ServeHTTP handler rw rq).trace ∧
        writtenBody (Errorhandler.ServeHTTP handler rw rq).trace = StatusText code ++ "\n" ∧
        (Errorhandler.ServeHTTP handler rw rq).rw.Body
          = rw1.Body ++ (StatusText code ++ "\n")) := by
  constructor
  · intro rw1 p hnext
    rw [Recoverer_ServeHTTP_panic recoverer rw rw1 rq p hnext]
    constructor
    · rw [http_Error_trace, writtenBody_append]
      cases hl : recoverer.logger <;>
        simp [panicReport, hl, writtenBody, httpErrorOps, StatusText,
          StatusInternalServerError]
    · rw [http_Error_Body]
      simp [StatusText, StatusInternalServerError]
  · intro rw1 e hnext
    rw [Errorhandler_ServeHTTP_failure handler rw rw1 rq e hnext]
    refine ⟨chosenStatus handler e, ?_, ?_, ?_, ?_⟩
    · by_cases hc : errIsAny (some e) handler.clientErrs = true <;>
        simp [chosenStatus, hc, StatusText, StatusBadRequest, StatusInternalServerError]
    · rw [http_Error_trace, sinkOps_append, sinkOps_map_sink]
      simp [httpErrorOps]
    · rw [http_Error_trace, writtenBody_append]
      cases hl : handler.logger <;>
        simp [errorReport, hl, writtenBody, httpErrorOps]
    · rw [http_Error_Body]

/-- C5, instance: two different panic payloads give the same written body. -/
theorem C5_generic_body_witness :
    writtenBody (Recoverer.ServeHTTP
      { next := panicWith (GoAny.string "secret"), ctx := 0, logger := none }
      NewRecorder testRequest).trace
    = writtenBody (Recoverer.ServeHTTP
      { next := panicWith (GoAny.int 42), ctx := 0, logger := none }
      NewRecorder testRequest).trace :=
  ((C5_generic_body
      { next := panicWith (GoAny.string "secret"), ctx := 0, logger := none }
      { next := failWith testClientError, ctx := 0, logger := none, clientErrs := [] }
      NewRecorder testRequest).1 NewRecorder (GoAny.string "secret") rfl).1.trans
  ((C5_generic_body
      { next := panicWith (GoAny.int 42), ctx := 0, logger := none }
      { next := failWith testClientError, ctx := 0, logger := none, clientErrs := [] }
      NewRecorder testRequest).1 NewRecorder (GoAny.int 42) rfl).1.symm

/-- C6: for every wrapped handler that completes normally (`Recoverer`: no
panic; `Errorhandler`: nil returned), the component calls the wrapped handler
exactly once, with the sink and request it was given, makes no call on the
sink, emits no log record and nothing else, and returns; the sink is left as
the wrapped handler left it (status, headers and body included). -/
theorem C6_pass_through (recoverer : Recoverer) (handler : Errorhandler)
    (rw : ResponseRecorder) (rq : Request) :
    (∀ rw1, recoverer.next rw rq = (rw1, Completion.returned) →
      Recoverer.ServeHTTP recoverer rw rq
        = { rw := rw1, trace := [Event.callNext rw rq], completion := Completion.returned } ∧
      nextCalls (Recoverer.ServeHTTP recoverer rw rq).trace = [(rw, rq)] ∧
      sinkOps (Recoverer.ServeHTTP recoverer rw rq).trace = [] ∧
      logCalls (Recoverer.ServeHTTP recoverer rw rq).trace = [] ∧
      (Recoverer.ServeHTTP recoverer rw rq).rw = (recoverer.next rw rq).1) ∧
    (∀ rw1, handler.next rw rq = (rw1, CustomCompletion.returned none) →
      Errorhandler.ServeHTTP handler rw rq
        = { rw := rw1, trace := [Event.callNext rw rq], completion := Completion.returned } ∧
      nextCalls (Errorhandler.ServeHTTP handler rw rq).trace = [(rw, rq)] ∧
      sinkOps (Errorhandler.ServeHTTP handler rw rq).trace = [] ∧
      logCalls (Errorhandler.ServeHTTP handler rw rq).trace = [] ∧
      (Errorhandler.ServeHTTP handler rw rq).rw = (handler.next rw rq).1) := by
  constructor
  · intro rw1 hnext
    have h : Recoverer.ServeHTTP recoverer rw rq
        = { rw := rw1, trace := [Event.callNext rw rq], completion := Completion.returned } := by
      unfold Recoverer.ServeHTTP
      rw [hnext]
    rw [h, hnext]
    simp [nextCalls, sinkOps, logCalls]
  · intro rw1 hnext
    have h : Errorhandler.ServeHTTP handler rw rq
        = { rw := rw1, trace := [Event.callNext rw rq], completion := Completion.returned } := by
      unfold Errorhandler.ServeHTTP
      rw [hnext]
    rw [h, hnext]
    simp [nextCalls, sinkOps, logCalls]

/-- C6, instance: the handlers of `TestNoRecoveryNeeded` and
`TestNoErrorHandlingNeeded` send status 200; through either component the
recorder ends exactly as the handler left it, with status 200. -/
theorem C6_pass_through_witness :
    (Recoverer.ServeHTTP { next := okHandler, ctx := 0, logger := none }
      NewRecorder testRequest).rw = NewRecorder.WriteHeader StatusOK ∧
    (Errorhandler.ServeHTTP
      { next := okCustomHandler, ctx := 0, logger := none, clientErrs := [some testClientError] }
      NewRecorder testRequest).rw = NewRecorder.WriteHeader StatusOK :=
  have h := C6_pass_through { next := okHandler, ctx := 0, logger := none }
    { next := okCustomHandler, ctx := 0, logger := none, clientErrs := [some testClientError] }
    NewRecorder testRequest
  ⟨(h.1 (NewRecorder.WriteHeader StatusOK) rfl).2.2.2.2,
   (h.2 (NewRecorder.WriteHeader StatusOK) rfl).2.2.2.2⟩

/-- C7: `errIsAny(err, target)` returns true if and only if there is an
element `t` of `target` such that `err` is `t` or some error in the wrap chain
of `err` is `t`, which is what `errors.Is(err, t)` decides; so it is true for
a list member and for an error wrapping a list member, false for an error
matching no element, and false for every `err` when `target` is empty. -/
theorem C7_errIsAny_iff (err : error) (target : List error) :
    (errIsAny err target = true ↔ ∃ t, t ∈ target ∧ Matches err t) ∧
    (errIsAny err target = true ↔ ∃ t, t ∈ target ∧ errors.Is err t = true) ∧
    (err ∈ target → errIsAny err target = true) ∧
    (∀ a m e, err = some e → err ∈ target →
      errIsAny (some (GoError.wrapError a m e)) target = true) ∧
    ((∀ t, t ∈ target → ¬ Matches err t) → errIsAny err target = false) ∧
    errIsAny err [] = false := by
  have hiff : errIsAny err target = true ↔ ∃ t, t ∈ target ∧ Matches err t := by
    rw [errIsAny_eq_true_iff]
    constructor
    · rintro ⟨t, ht, h⟩; exact ⟨t, ht, (errors_Is_iff _ _).mp h⟩
    · rintro ⟨t, ht, h⟩; exact ⟨t, ht, (errors_Is_iff _ _).mpr h⟩
  refine ⟨hiff, errIsAny_eq_true_iff err target, ?_, ?_, ?_, rfl⟩
  · intro hmem
    exact hiff.mpr ⟨err, hmem, Or.inl rfl⟩
  · intro a m e he hmem
    subst he
    exact (errIsAny_eq_true_iff _ _).mpr ⟨some e, hmem, (errors_Is_iff _ _).mpr
      (Or.inr ⟨_, e, rfl, rfl, InChain.step (Unwraps.wrapError a m e) (InChain.self e)⟩)⟩
  · intro hno
    rw [Bool.eq_false_iff]
    intro h
    obtain ⟨t, ht, hm⟩ := hiff.mp h
    exact hno t ht hm

/-- C7, instance: the three checks of `TestErrIsAny`: a list member, an error
outside the list, and an error wrapping a list member. -/
theorem C7_errIsAny_iff_witness :
    errIsAny (some (errors.New 11 "error 1"))
      [some (errors.New 11 "error 1"), some (errors.New 12 "error 2")] = true ∧
    errIsAny (some (errors.New 13 "error 3"))
      [some (errors.New 11 "error 1"), some (errors.New 12 "error 2")] = false ∧
    errIsAny (some (GoError.wrapError 14 "wrapped: error 1" (errors.New 11 "error 1")))
      [some (errors.New 11 "error 1"), some (errors.New 12 "error 2")] = true :=
  ⟨(C7_errIsAny_iff (some (errors.New 11 "error 1"))
      [some (errors.New 11 "error 1"), some (errors.New 12 "error 2")]).2.2.1 (by decide),
   by decide,
   (C7_errIsAny_iff (some (errors.New 11 "error 1"))
      [some (errors.New 11 "error 1"), some (errors.New 12 "error 2")]).2.2.2.1
      14 "wrapped: error 1" (errors.New 11 "error 1") rfl (by decide)⟩

/-- C8, counterexample: the wrapped handler sends a complete response (status
200, body `done`) and then returns `testServerError`; the component still
calls `http.Error` on the sink: it calls `WriteHeader(500)` and writes the
status text line, which ends up in the body after `done`. -/
theorem C8_counterexample :
    ((writeThenFail testServerError) NewRecorder testRequest).1.wroteHeader = true ∧
    sinkOps (Errorhandler.ServeHTTP
      { next := writeThenFail testServerError, ctx := 0, logger := none,
        clientErrs := [some testClientError] } NewRecorder testRequest).trace
      = [SinkOp.HeaderDel "Content-Length",
         SinkOp.HeaderSet "Content-Type" "text/plain; charset=utf-8",
         SinkOp.HeaderSet "X-Content-Type-Options" "nosniff",
         SinkOp.WriteHeader 500,
         SinkOp.Write "Internal Server Error\n"] ∧
    sinkOps (Errorhandler.ServeHTTP
      { next := writeThenFail testServerError, ctx := 0, logger := none,
        clientErrs := [some testClientError] } NewRecorder testRequest).trace ≠ [] ∧
    (Errorhandler.ServeHTTP
      { next := writeThenFail testServerError, ctx := 0, logger := none,
        clientErrs := [some testClientError] } NewRecorder testRequest).rw.Body
      = "doneInternal Server Error\n" := by
  decide

/-- C8, amended: on every invocation in which the wrapped handler returns a
non-nil error, `Errorhandler.ServeHTTP` makes exactly one `http.Error` call on
the sink (one `WriteHeader` and one `Write`), whether or not the wrapped
handler has already written a response.  On a sink that keeps the first
status and appends every write, as `httptest.ResponseRecorder` does, a handler
that has already sent the header keeps the status it sent and gets the status
text line appended to the body it wrote.  When the wrapped handler returns nil
the component makes no call on the sink. -/
theorem C8_one_error_write (handler : Errorhandler) (rw : ResponseRecorder) (rq : Request) :
    (∀ rw1 e, handler.next rw rq = (rw1, CustomCompletion.returned (some e)) →
      ∃ code, (code = 400 ∨ code = 500) ∧
        sinkOps (Errorhandler.ServeHTTP handler rw rq).trace
          = httpErrorOps (StatusText code) code ∧
        (rw1.wroteHeader = true →
          (Errorhandler.ServeHTTP handler rw rq).rw.Code = rw1.Code ∧
          (Errorhandler.ServeHTTP handler rw rq).rw.Body
            = rw1.Body ++ (StatusText code ++ "\n"))) ∧
    (∀ rw1, handler.next rw rq = (rw1, CustomCompletion.returned none) →
      sinkOps (Errorhandler.ServeHTTP handler rw rq).trace = []) := by
  constructor
  · intro rw1 e hnext
    rw [Errorhandler_ServeHTTP_failure handler rw rw1 rq e hnext]
    refine ⟨chosenStatus handler e, ?_, ?_, ?_⟩
    · by_cases hc : errIsAny (some e) handler.clientErrs = true <;>
        simp [chosenStatus, hc, StatusBadRequest, StatusInternalServerError]
    · rw [http_Error_trace, sinkOps_append, sinkOps_map_sink]
      cases hl : handler.logger <;> simp [errorReport, hl, sinkOps]
    · intro hw
      constructor
      · simp [http_Error_Code, hw]
      · rw [http_Error_Body]
  · intro rw1 hnext
    unfold Errorhandler.ServeHTTP
    rw [hnext]
    simp [sinkOps]

/-- C8, instance: the wrapped handler sends a complete response (status 200,
body `done`) and then returns `testServerError`; the component still makes the
five calls of one `http.Error`, the status stays 200 and the status text line
follows `done` in the body. -/
theorem C8_one_error_write_witness :
    ((writeThenFail testServerError) NewRecorder testRequest).1.wroteHeader = true ∧
    ∃ code, (code = 400 ∨ code = 500) ∧
      sinkOps (Errorhandler.ServeHTTP
        { next := writeThenFail testServerError, ctx := 0, logger := none,
          clientErrs := [some testClientError] } NewRecorder testRequest).trace
        = httpErrorOps (StatusText code) code ∧
      (Errorhandler.ServeHTTP
        { next := writeThenFail testServerError, ctx := 0, logger := none,
          clientErrs := [some testClientError] } NewRecorder testRequest).rw.Code = 200 ∧
      (Errorhandler.ServeHTTP
        { next := writeThenFail testServerError, ctx := 0, logger := none,
          clientErrs := [some testClientError] } NewRecorder testRequest).rw.Body
        = "done" ++ (StatusText code ++ "\n") :=
  have hw : ((writeThenFail testServerError) NewRecorder testRequest).1.wroteHeader = true :=
    by decide
  have ⟨code, h1, h2, h3⟩ := (C8_one_error_write
    { next := writeThenFail testServerError, ctx := 0, logger := none,
      clientErrs := [some testClientError] } NewRecorder testRequest).1
    ((writeThenFail testServerError) NewRecorder testRequest).1 testServerError rfl
  have hb : ((writeThenFail testServerError) NewRecorder testRequest).1.Body = "done" :=
    by decide
  ⟨hw, code, h1, h2, (h3 hw).1.trans (by decide),
    (h3 hw).2.trans (congrArg (fun b => b ++ (StatusText code ++ "\n")) hb)⟩

/-- C9: client-error classification does not depend on the order of the
sentinel list: for every error `err` and lists `target1`, `target2` that are
permutations of each other, `errIsAny` gives the same answer, and
`Errorhandler.ServeHTTP` behaves the same (same status, same calls, same
resulting sink) under both configurations. -/
theorem C9_order_independent (err : error) (target1 target2 : List error)
    (hperm : target1.Perm target2) :
    errIsAny err target1 = errIsAny err target2 ∧
    ∀ (next : CustomHandler) (ctx : Context) (logger : Option Logger)
      (rw : ResponseRecorder) (rq : Request),
      Errorhandler.ServeHTTP
        { next := next, ctx := ctx, logger := logger, clientErrs := target1 } rw rq
      = Errorhandler.ServeHTTP
        { next := next, ctx := ctx, logger := logger, clientErrs := target2 } rw rq := by
  refine ⟨errIsAny_perm err hperm, ?_⟩
  intro next ctx logger rw rq
  have h : ∀ e, errIsAny e target1 = errIsAny e target2 := fun e => errIsAny_perm e hperm
  simp only [Errorhandler.ServeHTTP, h]

/-- C9, instance: the two orders of a list of two sentinels classify
`wrappedClientError` alike, as a client error. -/
theorem C9_order_independent_witness :
    [some testClientError, some testServerError].Perm
      [some testServerError, some testClientError] ∧
    errIsAny (some wrappedClientError) [some testClientError, some testServerError]
      = errIsAny (some wrappedClientError) [some testServerError, some testClientError] ∧
    errIsAny (some wrappedClientError) [some testServerError, some testClientError] = true :=
  ⟨List.Perm.swap _ _ _,
   (C9_order_independent (some wrappedClientError)
      [some testClientError, some testServerError]
      [some testServerError, some testClientError] (List.Perm.swap _ _ _)).1,
   by decide⟩

/-- C10, counterexample: both components are configured with the context of
identity 0 and a logger, and serve `testRequest`, whose own context has
identity 7; the context handed to the logger is 0, not the request's. -/
theorem C10_counterexample :
    logCalls (Recoverer.ServeHTTP
      { next := panicWith (GoAny.string "test panic string"), ctx := 0,
        logger := some testLogger } NewRecorder testRequest).trace
      = [(testLogger, 0, "test panic string")] ∧
    logCalls (Errorhandler.ServeHTTP
      { next := failWith testServerError, ctx := 0, logger := some testLogger,
        clientErrs := [some testClientError] } NewRecorder testRequest).trace
      = [(testLogger, 0, "test server error")] ∧
    testRequest.ctx = 7 ∧
    (logCalls (Recoverer.ServeHTTP
      { next := panicWith (GoAny.string "test panic string"), ctx := 0,
        logger := some testLogger } NewRecorder testRequest).trace).map (fun c => c.2.1)
      ≠ [testRequest.ctx] ∧
    (logCalls (Errorhandler.ServeHTTP
      { next := failWith testServerError, ctx := 0, logger := some testLogger,
        clientErrs := [some testClientError] } NewRecorder testRequest).trace).map
        (fun c => c.2.1)
      ≠ [testRequest.ctx] := by
  decide

/-- C10, amended: when a logger is configured, `Recoverer.ServeHTTP` (on
panic) and `Errorhandler.ServeHTTP` (on a non-nil returned error) call the
logger's `ErrorContext` exactly once per failing invocation, for client errors
as well as server errors, with the error's message as the log message; the
context passed is the one the component was configured with (its `ctx`
field), whatever the context of the request. -/
theorem C10_log_call (recoverer : Recoverer) (handler : Errorhandler) (l : Logger)
    (rw : ResponseRecorder) (rq : Request) :
    (∀ rw1 p, recoverer.logger = some l →
      recoverer.next rw rq = (rw1, Completion.panicked p) →
      logCalls (Recoverer.ServeHTTP recoverer rw rq).trace
        = [(l, recoverer.ctx, fmt.Sprint p)]) ∧
    (∀ rw1 e, handler.logger = some l →
      handler.next rw rq = (rw1, CustomCompletion.returned (some e)) →
      logCalls (Errorhandler.ServeHTTP handler rw rq).trace
        = [(l, handler.ctx, e.Error)]) := by
  constructor
  · intro rw1 p hl hnext
    rw [Recoverer_ServeHTTP_panic recoverer rw rw1 rq p hnext, http_Error_trace,
      logCalls_append, logCalls_map_sink]
    cases p <;> simp [panicReport, hl, logCalls, fmt.Sprint]
  · intro rw1 e hl hnext
    rw [Errorhandler_ServeHTTP_failure handler rw rw1 rq e hnext, http_Error_trace,
      logCalls_append, logCalls_map_sink]
    simp [errorReport, hl, logCalls]

/-- C10, instance: a client error (`testClientError`, a configured sentinel)
is logged once, with the component's context 3 and the error's message, while
the request carries context 7. -/
theorem C10_log_call_witness :
    logCalls (Errorhandler.ServeHTTP
      { next := failWith testClientError, ctx := 3, logger := some testLogger,
        clientErrs := [some testClientError] } NewRecorder testRequest).trace
      = [(testLogger, 3, "test client error")] :=
  (C10_log_call
    { next := panicWith (GoAny.int 42), ctx := 3, logger := some testLogger }
    { next := failWith testClientError, ctx := 3, logger := some testLogger,
      clientErrs := [some testClientError] } testLogger NewRecorder testRequest).2
    NewRecorder testClientError rfl rfl

end middleware
